import Mathlib

/-!
# Verification of the vsix-os-monitor resource sampling engine

A shallow embedding of `src/extension.ts` of the `marhaendev/vsix-os-monitor`
VS Code extension, together with theorems about its measurement algorithms.

JavaScript numbers are modelled as exact rationals (`ℚ`); cumulative OS
counters as `Nat`/`Int`; the JS string operations used by the source
(`trim`, `split`, `parseInt`, `Number.prototype.toFixed`) are modelled as
executable functions on `List Char` / `String` following the ECMAScript
semantics for the inputs the source feeds them.  Fallible operations
(callback errors of `cp.exec` / `fs.readFile`, rejected promises) are
modelled with `Except`; a JavaScript exception escaping a function is
modelled by `Option` (`none` = throw).
-/

namespace OsMonitor

/-! ## JS string and number primitives -/

/-- One decimal digit character, `d < 10` expected. -/
def digit (d : Nat) : Char := Nat.digitChar d

/-- Decimal rendering worker; the fuel bounds the digit count so that the
recursion is structural and kernel-reducible.  `natToChars` always supplies
enough fuel, so the `0` arm is never reached. -/
def natToCharsAux : Nat → Nat → List Char
  | 0, _ => []
  | fuel + 1, n =>
    if n < 10 then [digit n]
    else natToCharsAux fuel (n / 10) ++ [digit (n % 10)]

/-- Decimal rendering of a natural number (the digits of `toFixed` output). -/
def natToChars (n : Nat) : List Char :=
  natToCharsAux (n + 1) n

def natToStr (n : Nat) : String := String.mk (natToChars n)

/-- `x.toFixed(1)` for a nonnegative rational `x`: per ECMAScript, the integer
`n` with `n / 10` closest to `x`, ties to the larger `n`, rendered with one
digit after the point. -/
def jsToFixed1nn (x : ℚ) : String :=
  natToStr ((⌊x * 10 + 1 / 2⌋).toNat / 10) ++ "." ++
    natToStr ((⌊x * 10 + 1 / 2⌋).toNat % 10)

/-- `x.toFixed(1)`: ECMAScript splits off the sign, then rounds `|x|`. -/
def jsToFixed1 (x : ℚ) : String :=
  if x < 0 then "-" ++ jsToFixed1nn (-x) else jsToFixed1nn x

/-- `x.toFixed(0)` for a nonnegative rational. -/
def jsToFixed0nn (x : ℚ) : String :=
  natToStr ((⌊x + 1 / 2⌋).toNat)

/-- `x.toFixed(0)`. -/
def jsToFixed0 (x : ℚ) : String :=
  if x < 0 then "-" ++ jsToFixed0nn (-x) else jsToFixed0nn x

/-- `String.prototype.split` with a single-character-class separator predicate:
splitting keeps empty pieces, and splitting the empty string yields `[[]]`,
exactly as in JavaScript. -/
def jsSplitP (p : Char → Bool) : List Char → List (List Char)
  | [] => [[]]
  | c :: rest =>
    if p c then [] :: jsSplitP p rest
    else
      match jsSplitP p rest with
      | [] => [[c]]
      | h :: t => (c :: h) :: t

/-- The whitespace characters relevant to the source's `trim` / `\s` uses. -/
def isWs (c : Char) : Bool :=
  c = ' ' || c = '\t' || c = '\n' || c = '\r'

/-- `String.prototype.trim`. -/
def jsTrim (cs : List Char) : List Char :=
  ((cs.dropWhile isWs).reverse.dropWhile isWs).reverse

/-- `line.split(/\s+/)` for a line already trimmed by the caller (every use in
the source trims first): runs of whitespace separate the tokens, so no empty
tokens remain.  (On a fully empty line JS returns `[""]` where this returns
`[]`; every consumer treats the two identically — an empty token list and a
singleton empty token fail the same length guards and parse to the same 0.) -/
def splitWsNE (cs : List Char) : List (List Char) :=
  (jsSplitP isWs cs).filter (fun l => !l.isEmpty)

/-- Digit run to number, for `parseInt`. -/
def digitsToNat (ds : List Char) : Nat :=
  ds.foldl (fun a c => a * 10 + (c.toNat - 48)) 0

/-- `parseInt(s, 10) || 0`: skip leading whitespace, optional sign, read the
leading digit run; no digits (`NaN`) — and JS's `-0` — fall through to `0`. -/
def parseIntOr0 (cs : List Char) : Int :=
  let cs := cs.dropWhile isWs
  match cs with
  | '-' :: rest =>
    let ds := rest.takeWhile Char.isDigit
    if ds.isEmpty then 0 else -(digitsToNat ds : Int)
  | '+' :: rest =>
    let ds := rest.takeWhile Char.isDigit
    if ds.isEmpty then 0 else (digitsToNat ds : Int)
  | _ =>
    let ds := cs.takeWhile Char.isDigit
    if ds.isEmpty then 0 else (digitsToNat ds : Int)

/-! ## CPU load tracker (`calculateCpuUsage`, extension.ts lines 131–164) -/

/-- `os.CpuInfo.times`: cumulative per-core millisecond counters. -/
structure CpuTimes where
  user : Nat
  nice : Nat
  sys : Nat
  idle : Nat
  irq : Nat
  deriving DecidableEq, Repr

/-- `for (const type in times) total += times[type]` — the grand total. -/
def CpuTimes.total (t : CpuTimes) : Int :=
  (t.user : Int) + t.nice + t.sys + t.idle + t.irq

/-- The loop of `calculateCpuUsage`: pair `currentCpus[i]` with
`previousCpus[i]` for each index of `currentCpus`, accumulating
`(idleDiff, totalDiff)`.  When `previousCpus[i]` is `undefined` (current
sample has more cores) the source dereferences `prev.times` and throws a
`TypeError`; that path is `none`.  Spare `previousCpus` entries beyond
`currentCpus.length` are never read. -/
def cpuDiffs : List CpuTimes → List CpuTimes → Option (Int × Int)
  | [], _ => some (0, 0)
  | _ :: _, [] => none
  | c :: cs, p :: ps =>
    (cpuDiffs cs ps).map fun (idleDiff, totalDiff) =>
      (idleDiff + ((c.idle : Int) - p.idle), totalDiff + (c.total - p.total))

/-- `calculateCpuUsage(currentCpus)` with the module-level `previousCpus`
passed explicitly; returns the displayed percentage string and the new
`previousCpus` (the assignment `previousCpus = currentCpus` precedes the
zero-division check, so the state update happens on both return paths).
`none` models the `TypeError` thrown when the current sample has more cores
than the stored previous one. -/
def calculateCpuUsage (currentCpus previousCpus : List CpuTimes) :
    Option (String × List CpuTimes) :=
  (cpuDiffs currentCpus previousCpus).map fun (idleDiff, totalDiff) =>
    (if totalDiff = 0 then "0.0"
     else jsToFixed1 ((1 - (idleDiff : ℚ) / (totalDiff : ℚ)) * 100),
     currentCpus)

/-! ## Disk usage probe (`getDiskUsage`, POSIX branch, extension.ts 193–213)

The probe shells out to `df -h --output=size,used,pcent /`; the callback
receives either an error or the stdout text.  (The `win32` branch of the
source parses `wmic` output instead; the spec's POSIX strategy is the one
embedded here.) -/

/-- `stdout.trim().split('\n')` of the `df` output. -/
def dfLines (stdout : String) : List (List Char) :=
  jsSplitP (fun c => c = '\n') (jsTrim stdout.data)

/-- `lines[1].trim().split(/\s+/)` — the whitespace tokens of the second
output line (`[]` when there is no second line). -/
def dfParts (stdout : String) : List (List Char) :=
  splitWsNE (jsTrim ((dfLines stdout).getD 1 []))

/-- The shape `getDiskUsage` demands of the `df` output before it reads the
three columns. -/
def dfParsable (stdout : String) : Prop :=
  2 ≤ (dfLines stdout).length ∧ 3 ≤ (dfParts stdout).length

instance (stdout : String) : Decidable (dfParsable stdout) := by
  unfold dfParsable; infer_instance

/-- The POSIX branch of `getDiskUsage`: on a command error resolve `"?"`;
otherwise trim, split into lines, take line 2, split on whitespace, and
resolve `used + "/" + size + " " + percent` from columns 1/0/2; any shape
failure resolves `"?"`. -/
def getDiskUsage (res : Except Unit String) : String :=
  match res with
  | .error _ => "?"
  | .ok stdout =>
    if 2 ≤ (dfLines stdout).length then
      if 3 ≤ (dfParts stdout).length then
        String.mk ((dfParts stdout).getD 1 []) ++ "/" ++
          String.mk ((dfParts stdout).getD 0 []) ++ " " ++
          String.mk ((dfParts stdout).getD 2 [])
      else "?"
    else "?"

/-! ## Network throughput tracker (`getTrafUsage`, extension.ts 216–278) -/

/-- The module-level `prevNet = { bytes: 0, time: 0 }`. -/
structure NetState where
  bytes : Int
  time : Nat
  deriving DecidableEq, Repr

/-- `haystack.includes(pat)`: some contiguous run of `cs` equals `pat`. -/
def containsRun (pat : List Char) : List Char → Bool
  | [] => pat.isEmpty
  | c :: rest => pat.isPrefixOf (c :: rest) || containsRun pat rest

/-- Sum the non-loopback rx+tx byte counters out of `/proc/net/dev` text:
skip the two header lines, skip lines containing `lo:`, and read the
counters out of whichever of the three recognised layouts the line has. -/
def procNetTotal (data : String) : Int :=
  let lines := jsSplitP (fun c => c = '\n') data.data
  (lines.drop 2).foldl
    (fun totalBytes rawLine =>
      let line := jsTrim rawLine
      if containsRun ['l', 'o', ':'] line then totalBytes
      else
        let parts := splitWsNE line
        let p0 := parts.getD 0 []
        let rxTx : Int × Int :=
          if p0.contains ':' then
            if p0.getLast? = some ':' then
              (parseIntOr0 (parts.getD 1 []), parseIntOr0 (parts.getD 9 []))
            else
              let sub := jsSplitP (fun c => c = ':') p0
              (parseIntOr0 (sub.getD 1 []), parseIntOr0 (parts.getD 8 []))
          else if !(parts.getD 1 []).isEmpty ∧ (parts.getD 1 []).head? = some ':' then
            (parseIntOr0 (parts.getD 2 []), parseIntOr0 (parts.getD 10 []))
          else (0, 0)
        totalBytes + rxTx.1 + rxTx.2)
    0

/-- The `mbps` value of `getTrafUsage`: it stays `0` on the first sample
(`prevNet.time == 0`), on non-positive elapsed time and on a counter
decrease; otherwise it is `bps * 8 / 1e6` with `bps = bytesDiff / timeDiffSec`. -/
def trafMbps (totalBytes : Int) (now : Nat) (prevNet : NetState) : ℚ :=
  if 0 < prevNet.time then
    if 0 < ((now : ℚ) - (prevNet.time : ℚ)) / 1000 ∧
        0 ≤ totalBytes - prevNet.bytes then
      ((totalBytes - prevNet.bytes : Int) : ℚ) /
          (((now : ℚ) - (prevNet.time : ℚ)) / 1000) * 8 / (1000 * 1000)
    else 0
  else 0

/-- The rate computation and formatting of `getTrafUsage` once `totalBytes`
has been summed; `now` is `Date.now()`.  Returns the display string and the
updated `prevNet`. -/
def trafFromTotal (totalBytes : Int) (now : Nat) (prevNet : NetState) :
    String × NetState :=
  (if trafMbps totalBytes now prevNet < 1 then
     jsToFixed0 (trafMbps totalBytes now prevNet * 1000) ++ "Kbps"
   else jsToFixed1 (trafMbps totalBytes now prevNet) ++ "Mbps",
   ⟨totalBytes, now⟩)

/-- `getTrafUsage` on Linux, with the `/proc/net/dev` read outcome passed in:
a read error resolves `"0Kbps"` before `prevNet` is touched; otherwise the
counters are parsed, the rate computed, and `prevNet` replaced. -/
def getTrafUsage (res : Except Unit String) (prevNet : NetState) (now : Nat) :
    String × NetState :=
  match res with
  | .error _ => ("0Kbps", prevNet)
  | .ok data => trafFromTotal (procNetTotal data) now prevNet

/-! ## Orchestrator (`getResources`, extension.ts 100–129) -/

/-- The record literal `getResources` resolves with. -/
structure Snapshot where
  cpu : String
  ram : String
  disk : String
  traf : String
  deriving DecidableEq, Repr

/-- The RAM display string:
`usedMemGB + "/" + totalMemGB + "GB " + ramPercentage + "%"` with
`usedMem = totalMem - freeMem`, the GB figures `x / 1024³` to one decimal and
the percentage `usedMem / totalMem * 100` to one decimal. -/
def ramDisplay (totalMem freeMem : ℚ) : String :=
  let usedMem := totalMem - freeMem
  let usedMemGB := jsToFixed1 (usedMem / (1024 * 1024 * 1024))
  let totalMemGB := jsToFixed1 (totalMem / (1024 * 1024 * 1024))
  let ramPercentage := jsToFixed1 (usedMem / totalMem * 100)
  usedMemGB ++ "/" ++ totalMemGB ++ "GB " ++ ramPercentage ++ "%"

/-- `getResources` with every platform read passed in explicitly:
`curCpus` is this tick's `os.cpus()`, `prevCpus` the stored module state,
`totalMem`/`freeMem` are `os.totalmem()`/`os.freemem()`, `diskRes` the
`df` outcome, `netRes` the `/proc/net/dev` outcome.  Returns the resolved
record plus the updated tracker states; `none` models an exception escaping
(only `calculateCpuUsage` can throw). -/
def getResources (prevCpus curCpus : List CpuTimes) (totalMem freeMem : ℚ)
    (diskRes : Except Unit String) (netRes : Except Unit String)
    (prevNet : NetState) (now : Nat) :
    Option (Snapshot × List CpuTimes × NetState) :=
  match calculateCpuUsage curCpus prevCpus with
  | none => none
  | some (cpu, newCpus) =>
    let disk := getDiskUsage diskRes
    let traf := getTrafUsage netRes prevNet now
    some ({ cpu := cpu, ram := ramDisplay totalMem freeMem, disk := disk,
            traf := traf.1 },
          newCpus, traf.2)

/-- `resources.ram.split(' ').pop() || resources.ram` (extension.ts line 56):
the final `' '`-separated token of the RAM string, falling back to the whole
string when that token is empty/absent. -/
def ramToken (s : String) : String :=
  if ((jsSplitP (fun c => c = ' ') s.data).getLastD []).isEmpty then s
  else String.mk ((jsSplitP (fun c => c = ' ') s.data).getLastD [])

/-! ## Bandwidth prober (`runSpeedTest`, extension.ts 280–332)

The prober mutates module globals and performs one HTTP download.  The state
carries the two globals plus ghost counters observing the effects (requests
issued, notifications shown).  `runSpeedTest` is split at its `await`:
`runSpeedTestStart` is the synchronous prefix (single-flight check, flag set,
request issue), `runSpeedTestFinish` the continuation once the download
promise settles (`try` success arm / `catch` / `finally`).  A non-200 status,
a connection error and a stream error all reject the promise, so all three
reach `runSpeedTestFinish` as `.error`. -/

structure SpeedState where
  isTestingSpeed : Bool
  lastSpeedTestResult : String
  requestsIssued : Nat
  errorNotifications : Nat
  infoNotifications : Nat
  deriving DecidableEq, Repr

/-- The synchronous prefix of `runSpeedTest`: `if (isTestingSpeed) return;`
else set the flag, set the `"Testing..."` display and issue the GET. -/
def runSpeedTestStart (s : SpeedState) : SpeedState :=
  if s.isTestingSpeed then s
  else { s with isTestingSpeed := true,
                lastSpeedTestResult := "Testing...",
                requestsIssued := s.requestsIssued + 1 }

/-- The continuation of `runSpeedTest` after the download promise settles:
on fulfilment compute `mbps = downloadedBytes*8/durationSec/1e6` and show an
info message; on rejection set `"Error"` and show an error message; the
`finally` block clears `isTestingSpeed` on both paths. -/
def runSpeedTestFinish (s : SpeedState) (startTime endTime : Nat)
    (outcome : Except Unit Nat) : SpeedState :=
  match outcome with
  | .ok downloadedBytes =>
    let durationSec : ℚ := ((endTime : ℚ) - (startTime : ℚ)) / 1000
    let bps : ℚ := (downloadedBytes : ℚ) * 8 / durationSec
    let mbps : ℚ := bps / (1000 * 1000)
    { s with lastSpeedTestResult := jsToFixed1 mbps ++ "Mbps",
             infoNotifications := s.infoNotifications + 1,
             isTestingSpeed := false }
  | .error _ =>
    { s with lastSpeedTestResult := "Error",
             errorNotifications := s.errorNotifications + 1,
             isTestingSpeed := false }

/-! ## Helper lemmas -/

theorem jsSplitP_ne_nil (p : Char → Bool) (cs : List Char) : jsSplitP p cs ≠ [] := by
  cases cs with
  | nil => simp [jsSplitP]
  | cons c rest =>
    simp only [jsSplitP]
    split
    · simp
    · split <;> simp

theorem jsSplitP_no_sep (p : Char → Bool) (cs : List Char)
    (h : ∀ c ∈ cs, p c = false) : jsSplitP p cs = [cs] := by
  induction cs with
  | nil => rfl
  | cons c rest ih =>
    have hc : p c = false := h c (by simp)
    have hr := ih fun x hx => h x (by simp [hx])
    simp [jsSplitP, hc, hr]

theorem jsSplitP_append (p : Char → Bool) (as bs : List Char) (sep : Char)
    (hsep : p sep = true) (ha : ∀ c ∈ as, p c = false) :
    jsSplitP p (as ++ sep :: bs) = as :: jsSplitP p bs := by
  induction as with
  | nil => simp [jsSplitP, hsep]
  | cons c rest ih =>
    have hc : p c = false := ha c (by simp)
    have hr := ih fun x hx => ha x (by simp [hx])
    rw [List.cons_append]
    simp only [jsSplitP, hc]
    simp only [hr, Bool.false_eq_true, if_false]

theorem jsSplitP_two (p : Char → Bool) (as bs : List Char) (sep : Char)
    (hsep : p sep = true) (ha : ∀ c ∈ as, p c = false)
    (hb : ∀ c ∈ bs, p c = false) :
    jsSplitP p (as ++ sep :: bs) = [as, bs] := by
  rw [jsSplitP_append p as bs sep hsep ha, jsSplitP_no_sep p bs hb]

theorem natToCharsAux_mem (fuel : Nat) :
    ∀ n, ∀ c ∈ natToCharsAux fuel n, ∃ d, d < 10 ∧ c = digit d := by
  induction fuel with
  | zero => intro n c hc; simp [natToCharsAux] at hc
  | succ fuel ih =>
    intro n c hc
    rw [natToCharsAux] at hc
    split at hc
    · next h => simp only [List.mem_singleton] at hc; exact ⟨n, h, hc⟩
    · next h =>
      rcases List.mem_append.mp hc with hc | hc
      · exact ih (n / 10) c hc
      · simp only [List.mem_singleton] at hc
        exact ⟨n % 10, Nat.mod_lt _ (by omega), hc⟩

theorem natToChars_mem (n : Nat) : ∀ c ∈ natToChars n, ∃ d, d < 10 ∧ c = digit d :=
  natToCharsAux_mem (n + 1) n

theorem digit_ne_space (d : Nat) (hd : d < 10) : digit d ≠ ' ' := by
  interval_cases d <;> decide

theorem space_notMem_natToChars (n : Nat) : ' ' ∉ natToChars n := by
  intro h
  obtain ⟨d, hd, hc⟩ := natToChars_mem n ' ' h
  exact digit_ne_space d hd hc.symm

theorem space_notMem_jsToFixed1nn (x : ℚ) : ' ' ∉ (jsToFixed1nn x).data := by
  intro h
  simp only [jsToFixed1nn, String.data_append, List.mem_append, natToStr] at h
  rcases h with (h | h) | h
  · exact space_notMem_natToChars _ h
  · simp at h
  · exact space_notMem_natToChars _ h

theorem jsToFixed1_eval (x : ℚ) (n : Nat) (hx : ¬ x < 0)
    (h : ⌊x * 10 + 1 / 2⌋ = (n : ℤ)) :
    jsToFixed1 x = natToStr (n / 10) ++ "." ++ natToStr (n % 10) := by
  unfold jsToFixed1 jsToFixed1nn
  rw [if_neg hx, h, Int.toNat_natCast]

theorem jsToFixed1_eval_neg (x : ℚ) (n : Nat) (hx : x < 0)
    (h : ⌊-x * 10 + 1 / 2⌋ = (n : ℤ)) :
    jsToFixed1 x = "-" ++ (natToStr (n / 10) ++ "." ++ natToStr (n % 10)) := by
  unfold jsToFixed1 jsToFixed1nn
  rw [if_pos hx, h, Int.toNat_natCast]

theorem jsToFixed0_eval (x : ℚ) (n : Nat) (hx : ¬ x < 0)
    (h : ⌊x + 1 / 2⌋ = (n : ℤ)) : jsToFixed0 x = natToStr n := by
  unfold jsToFixed0 jsToFixed0nn
  rw [if_neg hx, h, Int.toNat_natCast]

theorem space_notMem_jsToFixed1 (x : ℚ) : ' ' ∉ (jsToFixed1 x).data := by
  intro h
  unfold jsToFixed1 at h
  split at h
  · rw [String.data_append] at h
    rcases List.mem_append.mp h with h | h
    · simp at h
    · exact space_notMem_jsToFixed1nn _ h
  · exact space_notMem_jsToFixed1nn _ h

theorem cpuDiffs_isSome (cur prev : List CpuTimes) (h : cur.length ≤ prev.length) :
    ∃ d, cpuDiffs cur prev = some d := by
  induction cur generalizing prev with
  | nil => exact ⟨(0, 0), rfl⟩
  | cons c cs ih =>
    cases prev with
    | nil => simp at h
    | cons p ps =>
      obtain ⟨⟨i, t⟩, hd⟩ := ih ps (by simpa using h)
      exact ⟨(i + ((c.idle : Int) - p.idle), t + (c.total - p.total)),
             by simp [cpuDiffs, hd]⟩

theorem cpuDiffs_none (cur prev : List CpuTimes) (h : prev.length < cur.length) :
    cpuDiffs cur prev = none := by
  induction cur generalizing prev with
  | nil => simp at h
  | cons c cs ih =>
    cases prev with
    | nil => rfl
    | cons p ps => simp [cpuDiffs, ih ps (by simpa using h)]

theorem cpuDiffs_take (cur prev : List CpuTimes) :
    cpuDiffs cur (prev.take cur.length) = cpuDiffs cur prev := by
  induction cur generalizing prev with
  | nil => rfl
  | cons c cs ih =>
    cases prev with
    | nil => rfl
    | cons p ps => simp [cpuDiffs, List.take_succ_cons, ih ps]

/-- Per-core counter monotonicity between a previous and a current sample. -/
def cpuLe (p c : CpuTimes) : Prop :=
  p.user ≤ c.user ∧ p.nice ≤ c.nice ∧ p.sys ≤ c.sys ∧ p.idle ≤ c.idle ∧
    p.irq ≤ c.irq

instance : DecidableRel cpuLe := fun p c => by unfold cpuLe; infer_instance

theorem cpuDiffs_bounds (prev cur : List CpuTimes)
    (h : List.Forall₂ cpuLe prev cur) :
    ∃ idleDiff totalDiff : Int, cpuDiffs cur prev = some (idleDiff, totalDiff) ∧
      0 ≤ idleDiff ∧ idleDiff ≤ totalDiff := by
  induction h with
  | nil => exact ⟨0, 0, rfl, le_refl 0, le_refl 0⟩
  | cons hpc hrest ih =>
    obtain ⟨i, t, hd, hi, hit⟩ := ih
    rename_i p c ps cs
    obtain ⟨h1, h2, h3, h4, h5⟩ := hpc
    refine ⟨i + ((c.idle : Int) - p.idle), t + (c.total - p.total), ?_, ?_, ?_⟩
    · simp [cpuDiffs, hd]
    · omega
    · simp only [CpuTimes.total]
      omega

/-- The last `' '`-token of `a ++ " " ++ b` is `b` when neither side holds a
space and `b` is not empty. -/
theorem ramToken_append (a b : String) (ha : ' ' ∉ a.data) (hb : ' ' ∉ b.data)
    (hbne : b.data ≠ []) : ramToken (a ++ " " ++ b) = b := by
  unfold ramToken
  have hdata : (a ++ " " ++ b).data = a.data ++ ' ' :: b.data := by
    simp [String.data_append]
  rw [hdata, jsSplitP_two _ a.data b.data ' ' (by simp)
    (fun c hc => decide_eq_false fun hcs : c = ' ' => ha (hcs ▸ hc))
    (fun c hc => decide_eq_false fun hcs : c = ' ' => hb (hcs ▸ hc))]
  have hlast : ([a.data, b.data]).getLastD ([] : List Char) = b.data := rfl
  rw [hlast]
  have hne : b.data.isEmpty = false := by
    cases hcase : b.data with
    | nil => exact absurd hcase hbne
    | cons x xs => rfl
  rw [if_neg (by simp [hne])]

theorem trafMbps_of_first (totalBytes : Int) (now : Nat) (prevNet : NetState)
    (h : prevNet.time = 0) : trafMbps totalBytes now prevNet = 0 := by
  unfold trafMbps
  rw [if_neg (by omega)]

theorem trafMbps_of_time_nonpos (totalBytes : Int) (now : Nat)
    (prevNet : NetState) (h : ((now : ℚ) - (prevNet.time : ℚ)) / 1000 ≤ 0) :
    trafMbps totalBytes now prevNet = 0 := by
  unfold trafMbps
  by_cases hp : 0 < prevNet.time
  · rw [if_pos hp, if_neg (by rintro ⟨h1, -⟩; exact absurd h1 (not_lt.mpr h))]
  · rw [if_neg hp]

theorem trafMbps_of_decrease (totalBytes : Int) (now : Nat)
    (prevNet : NetState) (h : totalBytes - prevNet.bytes < 0) :
    trafMbps totalBytes now prevNet = 0 := by
  unfold trafMbps
  by_cases hp : 0 < prevNet.time
  · rw [if_pos hp, if_neg (by rintro ⟨-, h2⟩; exact absurd h2 (not_le.mpr h))]
  · rw [if_neg hp]

theorem trafMbps_of_pos (totalBytes : Int) (now : Nat) (prevNet : NetState)
    (hp : 0 < prevNet.time)
    (ht : 0 < ((now : ℚ) - (prevNet.time : ℚ)) / 1000)
    (hb : 0 ≤ totalBytes - prevNet.bytes) :
    trafMbps totalBytes now prevNet =
      ((totalBytes - prevNet.bytes : Int) : ℚ) /
          (((now : ℚ) - (prevNet.time : ℚ)) / 1000) * 8 / (1000 * 1000) := by
  unfold trafMbps
  rw [if_pos hp, if_pos ⟨ht, hb⟩]

theorem trafFromTotal_of_zero (totalBytes : Int) (now : Nat)
    (prevNet : NetState) (h : trafMbps totalBytes now prevNet = 0) :
    (trafFromTotal totalBytes now prevNet).1 = "0Kbps" := by
  unfold trafFromTotal
  rw [h, if_pos (by norm_num : (0 : ℚ) < 1),
    (by ring : (0 : ℚ) * 1000 = 0),
    jsToFixed0_eval 0 0 (by norm_num) (by norm_num)]
  show natToStr 0 ++ "Kbps" = "0Kbps"
  decide

/-! ## Claim theorems -/

/-- C4: for consecutive machine-wide CPU samples with the same core count and
monotonically non-decreasing per-core counters, when the summed `totalDiff`
is positive the tracker returns `(1 - idleDiff/totalDiff) * 100` rounded to
one decimal — a value in `[0, 100]` — and when it is zero it returns `"0.0"`
instead of dividing by zero; in both cases the stored previous sample is
replaced by the current one. -/
theorem c4_cpu_usage_formula (prev cur : List CpuTimes)
    (h : List.Forall₂ cpuLe prev cur) :
    ∃ idleDiff totalDiff : Int,
      cpuDiffs cur prev = some (idleDiff, totalDiff) ∧
      0 ≤ idleDiff ∧ idleDiff ≤ totalDiff ∧
      (0 < totalDiff →
        calculateCpuUsage cur prev =
          some (jsToFixed1 ((1 - (idleDiff : ℚ) / (totalDiff : ℚ)) * 100),
                cur) ∧
        0 ≤ (1 - (idleDiff : ℚ) / (totalDiff : ℚ)) * 100 ∧
        (1 - (idleDiff : ℚ) / (totalDiff : ℚ)) * 100 ≤ 100) ∧
      (totalDiff = 0 → calculateCpuUsage cur prev = some ("0.0", cur)) := by
  obtain ⟨i, t, hd, hi, hit⟩ := cpuDiffs_bounds prev cur h
  have hQ : ((0 : ℚ) ≤ (i : ℚ)) := by exact_mod_cast hi
  refine ⟨i, t, hd, hi, hit, ?_, ?_⟩
  · intro ht
    have htQ : (0 : ℚ) < (t : ℚ) := by exact_mod_cast ht
    have hratio1 : (i : ℚ) / (t : ℚ) ≤ 1 :=
      (div_le_one htQ).mpr (by exact_mod_cast hit)
    have hratio0 : (0 : ℚ) ≤ (i : ℚ) / (t : ℚ) := div_nonneg hQ htQ.le
    refine ⟨?_, by nlinarith, by nlinarith⟩
    have ht0 : ¬ t = 0 := by omega
    simp [calculateCpuUsage, hd, ht0]
  · intro ht
    simp [calculateCpuUsage, hd, ht]

theorem c4_cpu_usage_formula_witness :
    calculateCpuUsage [⟨25, 0, 0, 75, 0⟩] [⟨0, 0, 0, 0, 0⟩] =
      some ("25.0", [⟨25, 0, 0, 75, 0⟩]) := by
  obtain ⟨i, t, hd, -, -, hpos, -⟩ :=
    c4_cpu_usage_formula [⟨0, 0, 0, 0, 0⟩] [⟨25, 0, 0, 75, 0⟩]
      (List.Forall₂.cons (by decide) List.Forall₂.nil)
  have hconc : cpuDiffs [⟨25, 0, 0, 75, 0⟩] [⟨0, 0, 0, 0, 0⟩] =
      some (75, 100) := by decide
  rw [hd] at hconc
  have hpair := Option.some.inj hconc
  have hi : i = 75 := congrArg Prod.fst hpair
  have ht : t = 100 := congrArg Prod.snd hpair
  subst hi ht
  rw [(hpos (by norm_num)).1]
  have hval : (1 - ((75 : ℤ) : ℚ) / ((100 : ℤ) : ℚ)) * 100 = 25 := by norm_num
  rw [hval, jsToFixed1_eval 25 250 (by norm_num) (by norm_num)]
  decide

/-- C5 counterexample: the tracker is seeded with a real sample at module
load, so the first reported value is not `"0.0"` regardless of the raw
counters — at these concrete consecutive counters it is `"100.0"`. -/
theorem c5_counterexample :
    (calculateCpuUsage [⟨100, 0, 0, 100, 0⟩] [⟨0, 0, 0, 100, 0⟩]).map
        Prod.fst = some "100.0" ∧
      ("100.0" : String) ≠ "0.0" := by
  constructor
  · have hd : cpuDiffs [⟨100, 0, 0, 100, 0⟩] [⟨0, 0, 0, 100, 0⟩] =
        some (0, 100) := by decide
    have ht0 : ¬ (100 : ℤ) = 0 := by decide
    simp only [calculateCpuUsage, hd, Option.map_map]
    have hval : (1 - ((0 : ℤ) : ℚ) / ((100 : ℤ) : ℚ)) * 100 = 100 := by
      norm_num
    simp [ht0, hval, jsToFixed1_eval 100 1000 (by norm_num) (by norm_num)]
    decide
  · decide

/-- C5 amended: `previousCpus` is initialised with a real `os.cpus()` sample
at module load, so the first reported value is the computed usage over the
interval from that startup sample to the first tick, not `"0.0"` regardless
of the counters.  It is `"0.0"` on the zero-total-delta path (in particular
whenever the first tick still sees the startup counters) and whenever that
interval's usage is zero (an entirely idle interval,
`idleDiff = totalDiff`); a first tick with other activity reports that
usage instead. -/
theorem c5_first_sample (cur prev : List CpuTimes) (idleDiff totalDiff : Int)
    (h : cpuDiffs cur prev = some (idleDiff, totalDiff)) :
    (totalDiff = 0 → calculateCpuUsage cur prev = some ("0.0", cur)) ∧
    (idleDiff = totalDiff →
      calculateCpuUsage cur prev = some ("0.0", cur)) := by
  constructor
  · intro ht
    simp [calculateCpuUsage, h, ht]
  · intro he
    by_cases ht : totalDiff = 0
    · simp [calculateCpuUsage, h, ht]
    · have hval : (1 - (idleDiff : ℚ) / (totalDiff : ℚ)) * 100 = 0 := by
        subst he
        rw [div_self (by exact_mod_cast ht : ((idleDiff : ℚ)) ≠ 0)]
        ring
      have hres : jsToFixed1 ((1 - (idleDiff : ℚ) / (totalDiff : ℚ)) * 100) =
          "0.0" := by
        rw [hval, jsToFixed1_eval 0 0 (by norm_num) (by norm_num)]
        decide
      simp [calculateCpuUsage, h, ht, hres]

theorem c5_first_sample_witness :
    calculateCpuUsage [⟨0, 0, 0, 100, 0⟩] [⟨0, 0, 0, 0, 0⟩] =
      some ("0.0", [⟨0, 0, 0, 100, 0⟩]) :=
  (c5_first_sample [⟨0, 0, 0, 100, 0⟩] [⟨0, 0, 0, 0, 0⟩] 100 100
    (by decide)).2 rfl

/-- C6 counterexample: at a sample whose `user` counter decreased by 100
while `idle` grew by 200, the code still applies the delta formula and
reports `"-100.0"` — a negative usage percentage, not the zero/unknown
value the claim demands. -/
theorem c6_counterexample :
    (calculateCpuUsage [⟨0, 0, 0, 200, 0⟩] [⟨100, 0, 0, 0, 0⟩]).map
        Prod.fst = some "-100.0" ∧
      ("-100.0" : String) ≠ "0.0" ∧
      jsToFixed1 (-100) = "-100.0" ∧ (-100 : ℚ) < 0 := by
  have heval : jsToFixed1 (-100 : ℚ) = "-100.0" := by
    rw [jsToFixed1_eval_neg (-100) 1000 (by norm_num) (by norm_num)]
    decide
  refine ⟨?_, by decide, heval, by norm_num⟩
  have hd : cpuDiffs [⟨0, 0, 0, 200, 0⟩] [⟨100, 0, 0, 0, 0⟩] =
      some (200, 100) := by decide
  have ht0 : ¬ (100 : ℤ) = 0 := by decide
  have hval : (1 - (200 : ℚ) / (100 : ℚ)) * 100 = -100 := by norm_num
  simp [calculateCpuUsage, hd, ht0, hval, heval]

/-- C6 amended: the tracker never inspects the sign of the deltas — whenever
the summed `totalDiff` is non-zero (even negative) it applies
`(1 - idleDiff/totalDiff) * 100` as is, which can fall outside `[0, 100]`
and in particular be negative; only `totalDiff = 0` yields `"0.0"`. -/
theorem c6_decrease_not_detected (cur prev : List CpuTimes)
    (idleDiff totalDiff : Int)
    (h : cpuDiffs cur prev = some (idleDiff, totalDiff))
    (ht : totalDiff ≠ 0) :
    calculateCpuUsage cur prev =
      some (jsToFixed1 ((1 - (idleDiff : ℚ) / (totalDiff : ℚ)) * 100),
            cur) := by
  simp [calculateCpuUsage, h, ht]

theorem c6_decrease_not_detected_witness :
    calculateCpuUsage [⟨0, 0, 0, 200, 0⟩] [⟨100, 0, 0, 0, 0⟩] =
      some (jsToFixed1 ((1 - ((200 : ℤ) : ℚ) / ((100 : ℤ) : ℚ)) * 100),
            [⟨0, 0, 0, 200, 0⟩]) :=
  c6_decrease_not_detected [⟨0, 0, 0, 200, 0⟩] [⟨100, 0, 0, 0, 0⟩] 200 100
    (by decide) (by decide)

/-- C7 counterexample: when the current sample has more cores than the
previous one (hot-plug), the loop dereferences the missing
`previousCpus[i]` and throws, instead of aligning to the shorter length —
here one previous core against two current cores. -/
theorem c7_counterexample :
    calculateCpuUsage [⟨1, 1, 1, 1, 1⟩, ⟨1, 1, 1, 1, 1⟩] [⟨1, 1, 1, 1, 1⟩] =
      none := by decide

/-- C7 amended: alignment by index up to the shorter length only happens when
the current sample has at most as many cores as the previous one — then the
extra previous entries are ignored and a value is returned without error;
when the current sample has more cores, the tracker throws instead. -/
theorem c7_core_count_change (cur prev : List CpuTimes) :
    (cur.length ≤ prev.length →
      cpuDiffs cur prev = cpuDiffs cur (prev.take cur.length) ∧
      ∃ r, calculateCpuUsage cur prev = some (r, cur)) ∧
    (prev.length < cur.length → calculateCpuUsage cur prev = none) := by
  constructor
  · intro h
    refine ⟨(cpuDiffs_take cur prev).symm, ?_⟩
    obtain ⟨⟨i, t⟩, hd⟩ := cpuDiffs_isSome cur prev h
    exact ⟨if t = 0 then "0.0"
           else jsToFixed1 ((1 - (i : ℚ) / (t : ℚ)) * 100),
           by simp [calculateCpuUsage, hd]⟩
  · intro h
    simp [calculateCpuUsage, cpuDiffs_none cur prev h]

theorem c7_core_count_change_witness :
    (calculateCpuUsage [⟨2, 2, 2, 2, 2⟩]
        [⟨1, 1, 1, 1, 1⟩, ⟨9, 9, 9, 9, 9⟩]).isSome = true ∧
      calculateCpuUsage [⟨1, 1, 1, 1, 1⟩] [] = none := by
  constructor
  · obtain ⟨r, hr⟩ :=
      ((c7_core_count_change [⟨2, 2, 2, 2, 2⟩]
        [⟨1, 1, 1, 1, 1⟩, ⟨9, 9, 9, 9, 9⟩]).1 (by decide)).2
    rw [hr]; rfl
  · exact (c7_core_count_change [⟨1, 1, 1, 1, 1⟩] []).2 (by decide)

/-- C8: a first sample (`prevNet.time == 0`), a non-positive elapsed time or
a negative byte delta reports rate `0` (displayed `"0Kbps"`, never negative);
otherwise the rate is `bytesDiff/timeDiffSec` bytes per second, converted to
megabit with `mbps = bps*8/1e6` and displayed as integer-rounded `Kbps` when
`mbps < 1` and one-decimal `Mbps` otherwise — in particular a 2 000 000-byte
delta over 1000 ms displays `"16.0Mbps"` and a 500-byte delta over 1000 ms
displays `"4Kbps"`. -/
theorem c8_traffic_rate (totalBytes : Int) (now : Nat) (prevNet : NetState) :
    (prevNet.time = 0 → (trafFromTotal totalBytes now prevNet).1 = "0Kbps") ∧
    (((now : ℚ) - (prevNet.time : ℚ)) / 1000 ≤ 0 →
      (trafFromTotal totalBytes now prevNet).1 = "0Kbps") ∧
    (totalBytes - prevNet.bytes < 0 →
      (trafFromTotal totalBytes now prevNet).1 = "0Kbps") ∧
    (0 < prevNet.time →
      0 < ((now : ℚ) - (prevNet.time : ℚ)) / 1000 →
      0 ≤ totalBytes - prevNet.bytes →
      trafMbps totalBytes now prevNet =
        ((totalBytes - prevNet.bytes : Int) : ℚ) /
            (((now : ℚ) - (prevNet.time : ℚ)) / 1000) * 8 / (1000 * 1000) ∧
      (trafFromTotal totalBytes now prevNet).1 =
        (if trafMbps totalBytes now prevNet < 1 then
           jsToFixed0 (trafMbps totalBytes now prevNet * 1000) ++ "Kbps"
         else jsToFixed1 (trafMbps totalBytes now prevNet) ++ "Mbps")) ∧
    (trafFromTotal 3000000 2000 ⟨1000000, 1000⟩).1 = "16.0Mbps" ∧
    (trafFromTotal 1500 2000 ⟨1000, 1000⟩).1 = "4Kbps" := by
  refine ⟨fun h => trafFromTotal_of_zero _ _ _ (trafMbps_of_first _ _ _ h),
    fun h => trafFromTotal_of_zero _ _ _ (trafMbps_of_time_nonpos _ _ _ h),
    fun h => trafFromTotal_of_zero _ _ _ (trafMbps_of_decrease _ _ _ h),
    fun hp ht hb => ⟨trafMbps_of_pos _ _ _ hp ht hb, rfl⟩, ?_, ?_⟩
  · have e1 : trafMbps 3000000 2000 ⟨1000000, 1000⟩ = 16 := by
      rw [trafMbps_of_pos _ _ _ (by decide) (by norm_num) (by decide)]
      norm_num
    simp only [trafFromTotal, e1]
    rw [if_neg (by norm_num : ¬ (16 : ℚ) < 1),
      jsToFixed1_eval 16 160 (by norm_num) (by norm_num)]
    decide
  · have e2 : trafMbps 1500 2000 ⟨1000, 1000⟩ = 1 / 250 := by
      rw [trafMbps_of_pos _ _ _ (by decide) (by norm_num) (by decide)]
      norm_num
    simp only [trafFromTotal, e2]
    rw [if_pos (by norm_num : (1 : ℚ) / 250 < 1),
      (by norm_num : (1 : ℚ) / 250 * 1000 = 4),
      jsToFixed0_eval 4 4 (by norm_num) (by norm_num)]
    decide

theorem c8_traffic_rate_witness :
    (trafFromTotal 5 1000 ⟨0, 0⟩).1 = "0Kbps" :=
  (c8_traffic_rate 5 1000 ⟨0, 0⟩).1 rfl

/-- C9: for `df` output whose second line has at least three whitespace
tokens, columns 0/1/2 map to size/used/percent and the probe resolves
`used + "/" + size + " " + percent` — on the sample output the result is
`"10G/20G 53%"` — while a command error or malformed/empty output resolves
the unknown marker `"?"` (the parser is a total function; it cannot
throw). -/
theorem c9_disk_probe (res : Except Unit String) :
    (res = .error () → getDiskUsage res = "?") ∧
    (∀ stdout : String, res = .ok stdout →
      (dfParsable stdout →
        getDiskUsage res =
          String.mk ((dfParts stdout).getD 1 []) ++ "/" ++
            String.mk ((dfParts stdout).getD 0 []) ++ " " ++
            String.mk ((dfParts stdout).getD 2 [])) ∧
      (¬ dfParsable stdout → getDiskUsage res = "?")) ∧
    getDiskUsage (.ok "Size  Used Use%\n20G   10G  53%\n") = "10G/20G 53%" ∧
    getDiskUsage (.ok "") = "?" := by
  refine ⟨?_, ?_, by decide, by decide⟩
  · intro h
    subst h
    rfl
  · intro stdout h
    subst h
    constructor
    · intro hp
      simp only [getDiskUsage]
      rw [if_pos hp.1, if_pos hp.2]
    · intro hp
      simp only [getDiskUsage]
      by_cases h2 : 2 ≤ (dfLines stdout).length
      · rw [if_pos h2, if_neg (fun h3 => hp ⟨h2, h3⟩)]
      · rw [if_neg h2]

theorem c9_disk_probe_witness :
    getDiskUsage (.error ()) = "?" :=
  (c9_disk_probe (.error ())).1 rfl

/-- C10: the Snapshot's RAM field is
`usedGB + "/" + totalGB + "GB " + percent + "%"` with `used = total - free`,
the GB figures `x / 1024³` rounded to one decimal and the percentage
`used/total*100` rounded to one decimal; and the compact status-bar RAM
token (`ram.split(' ').pop()`) is the final space-separated token — the
percent. -/
theorem c10_ram_field (totalMem freeMem : ℚ) (h : 0 < totalMem) :
    ramDisplay totalMem freeMem =
      jsToFixed1 ((totalMem - freeMem) / (1024 * 1024 * 1024)) ++ "/" ++
        jsToFixed1 (totalMem / (1024 * 1024 * 1024)) ++ "GB " ++
        jsToFixed1 ((totalMem - freeMem) / totalMem * 100) ++ "%" ∧
    ramToken (ramDisplay totalMem freeMem) =
      jsToFixed1 ((totalMem - freeMem) / totalMem * 100) ++ "%" := by
  refine ⟨rfl, ?_⟩
  have hsplit : ramDisplay totalMem freeMem =
      (jsToFixed1 ((totalMem - freeMem) / (1024 * 1024 * 1024)) ++ "/" ++
        jsToFixed1 (totalMem / (1024 * 1024 * 1024)) ++ "GB") ++ " " ++
      (jsToFixed1 ((totalMem - freeMem) / totalMem * 100) ++ "%") := by
    apply String.ext
    simp [ramDisplay, String.data_append]
  rw [hsplit, ramToken_append]
  · intro hmem
    simp only [String.data_append, List.mem_append] at hmem
    rcases hmem with ((hm | hm) | hm) | hm
    · exact space_notMem_jsToFixed1 _ hm
    · simp at hm
    · exact space_notMem_jsToFixed1 _ hm
    · simp at hm
  · intro hmem
    simp only [String.data_append, List.mem_append] at hmem
    rcases hmem with hm | hm
    · exact space_notMem_jsToFixed1 _ hm
    · simp at hm
  · simp [String.data_append]

theorem c10_ram_field_witness :
    (0 : ℚ) < 2 ^ 33 ∧
      ramToken (ramDisplay ((2 : ℚ) ^ 33) ((2 : ℚ) ^ 32)) =
        jsToFixed1 (((2 : ℚ) ^ 33 - (2 : ℚ) ^ 32) / (2 : ℚ) ^ 33 * 100) ++
          "%" :=
  ⟨by norm_num, (c10_ram_field ((2 : ℚ) ^ 33) ((2 : ℚ) ^ 32) (by norm_num)).2⟩

/-- C2: while a probe is Running (`isTestingSpeed` true), `runSpeedTest` is a
no-op (state unchanged, no request issued, no error); from an idle state two
rapid calls leave the second one a no-op, so exactly one network request is
issued and at most one probe is ever Running. -/
theorem c2_single_flight (s : SpeedState) :
    (s.isTestingSpeed = true →
      runSpeedTestStart s = s ∧
      (runSpeedTestStart s).requestsIssued = s.requestsIssued) ∧
    (s.isTestingSpeed = false →
      (runSpeedTestStart s).isTestingSpeed = true ∧
      (runSpeedTestStart s).requestsIssued = s.requestsIssued + 1 ∧
      runSpeedTestStart (runSpeedTestStart s) = runSpeedTestStart s ∧
      (runSpeedTestStart (runSpeedTestStart s)).requestsIssued =
        s.requestsIssued + 1) := by
  constructor
  · intro h
    simp [runSpeedTestStart, h]
  · intro h
    simp [runSpeedTestStart, h]

theorem c2_single_flight_witness :
    (runSpeedTestStart
        (runSpeedTestStart ⟨false, "N/A", 0, 0, 0⟩)).requestsIssued =
      0 + 1 :=
  ((c2_single_flight ⟨false, "N/A", 0, 0, 0⟩).2 rfl).2.2.2

/-- C3: every completion path of a probe clears the single-flight flag (the
`finally`-equivalent cleanup), and a failed run — non-200, connection error
or stream error, all of which reject the download promise — ends with
display `"Error"`, exactly one extra user-visible error notification, and a
subsequent `runSpeedTest` transitions to Running again and issues a fresh
request: no failure permanently locks out future probes. -/
theorem c3_failure_releases_flag (s : SpeedState) (t0 t1 : Nat)
    (hs : s.isTestingSpeed = false) :
    (∀ s' : SpeedState, ∀ u0 u1 : Nat, ∀ outcome : Except Unit Nat,
      (runSpeedTestFinish s' u0 u1 outcome).isTestingSpeed = false) ∧
    (runSpeedTestFinish (runSpeedTestStart s) t0 t1
        (.error ())).lastSpeedTestResult = "Error" ∧
    (runSpeedTestFinish (runSpeedTestStart s) t0 t1
        (.error ())).errorNotifications = s.errorNotifications + 1 ∧
    (runSpeedTestStart (runSpeedTestFinish (runSpeedTestStart s) t0 t1
        (.error ()))).isTestingSpeed = true ∧
    (runSpeedTestStart (runSpeedTestFinish (runSpeedTestStart s) t0 t1
        (.error ()))).requestsIssued = s.requestsIssued + 2 := by
  refine ⟨?_, ?_, ?_, ?_, ?_⟩
  · intro s' u0 u1 outcome
    cases outcome <;> simp [runSpeedTestFinish]
  all_goals simp [runSpeedTestStart, runSpeedTestFinish, hs]

theorem c3_failure_releases_flag_witness :
    (runSpeedTestStart
        (runSpeedTestFinish (runSpeedTestStart ⟨false, "N/A", 0, 0, 0⟩) 0 7
          (.error ()))).isTestingSpeed = true :=
  (c3_failure_releases_flag ⟨false, "N/A", 0, 0, 0⟩ 0 7 rfl).2.2.2.1

/-- C1: under any single sub-probe failure the orchestrator still resolves a
full Snapshot (each field computed by its own probe, independently of the
others' outcomes): a `df` command error or unparseable `df` output degrades
only the disk field to `"?"`, and a `/proc/net/dev` read failure degrades
only the traffic field (resolved `"0Kbps"`, network state untouched), while
cpu, ram and the remaining fields are computed normally. -/
theorem c1_snapshot_degrades_fieldwise (prevCpus curCpus : List CpuTimes)
    (totalMem freeMem : ℚ) (diskRes netRes : Except Unit String)
    (prevNet : NetState) (now : Nat)
    (h : curCpus.length ≤ prevCpus.length) :
    (∃ cpu newCpus,
      calculateCpuUsage curCpus prevCpus = some (cpu, newCpus) ∧
      getResources prevCpus curCpus totalMem freeMem diskRes netRes prevNet
          now =
        some ({ cpu := cpu, ram := ramDisplay totalMem freeMem,
                disk := getDiskUsage diskRes,
                traf := (getTrafUsage netRes prevNet now).1 },
              newCpus, (getTrafUsage netRes prevNet now).2)) ∧
    getDiskUsage (.error ()) = "?" ∧
    (∀ stdout : String, ¬ dfParsable stdout →
      getDiskUsage (.ok stdout) = "?") ∧
    getTrafUsage (.error ()) prevNet now = ("0Kbps", prevNet) := by
  refine ⟨?_, rfl, ?_, rfl⟩
  · obtain ⟨⟨i, t⟩, hd⟩ := cpuDiffs_isSome curCpus prevCpus h
    refine ⟨if t = 0 then "0.0"
            else jsToFixed1 ((1 - (i : ℚ) / (t : ℚ)) * 100), curCpus,
            by simp [calculateCpuUsage, hd], ?_⟩
    simp only [getResources, calculateCpuUsage, hd, Option.map_some']
  · intro stdout hp
    simp only [getDiskUsage]
    by_cases h2 : 2 ≤ (dfLines stdout).length
    · rw [if_pos h2, if_neg (fun h3 => hp ⟨h2, h3⟩)]
    · rw [if_neg h2]

theorem c1_snapshot_degrades_fieldwise_witness :
    getResources [⟨1, 1, 1, 1, 1⟩] [⟨1, 1, 1, 1, 1⟩] 4 1 (.error ())
        (.error ()) ⟨0, 0⟩ 5 =
      some ({ cpu := "0.0", ram := ramDisplay 4 1, disk := "?",
              traf := "0Kbps" },
            [⟨1, 1, 1, 1, 1⟩], ⟨0, 0⟩) := by
  obtain ⟨⟨cpu, newCpus, hc, hg⟩, -, -, -⟩ :=
    c1_snapshot_degrades_fieldwise [⟨1, 1, 1, 1, 1⟩] [⟨1, 1, 1, 1, 1⟩] 4 1
      (.error ()) (.error ()) ⟨0, 0⟩ 5 (by decide)
  have hconc : calculateCpuUsage [⟨1, 1, 1, 1, 1⟩] [⟨1, 1, 1, 1, 1⟩] =
      some ("0.0", [⟨1, 1, 1, 1, 1⟩]) := by decide
  rw [hc] at hconc
  have hcpu : cpu = "0.0" :=
    congrArg Prod.fst (Option.some.inj hconc)
  have hnew : newCpus = [⟨1, 1, 1, 1, 1⟩] :=
    congrArg Prod.snd (Option.some.inj hconc)
  rw [hg, hcpu, hnew]
  rfl

end OsMonitor
